import Mathlib

/-!
# dasfoo/i2c : the Linux I2C bus accessor (`i2c.go`)

A shallow embedding of `i2c.go`.  The Go methods mutate a `*bus` and talk to the
operating system; here every method is a function from the system state before
the call to its result and the system state after it.

* The operating system and the attached hardware are a state `D` together with a
  `Platform`, one field per foreign call made by the source
  (`os.OpenFile`, `File.Close`, the `I2C_SLAVE` ioctl and the five
  `i2c_smbus_*` helpers of `linux/i2c-dev.h`).
* The logger writes to a sink `L`.
* Every foreign call and every logger call made by a method is appended to a
  trace of `Event`s, in the order the source makes them.
* Bytes (`byte`, `C.__u8`) are natural numbers below 256, `C.__s32` and `int`
  are integers; a conversion that can truncate is written with an explicit `%`.
* `opLock` is not modelled: the embedding is sequential.
-/

namespace I2c

/-- The `error` values this package returns: a `syscall.Errno`, or the
`*os.PathError` of a failed open. -/
inductive GoError where
  | errno (n : Nat)
  | pathError (path : String) (n : Nat)
  deriving DecidableEq, Repr

/-- A Go `error`: `none` is `nil`. -/
abbrev Error := Option GoError

/-- The `err` cgo attaches to a C call: `nil` when `errno` is 0 after the call,
`syscall.Errno(errno)` otherwise. -/
def cgoErr (errno : Nat) : Error :=
  if errno = 0 then none else some (GoError.errno errno)

/-- One `interface{}` argument handed to the logger. -/
inductive Arg where
  | str (s : String)
  | byte (b : Nat)
  | int (i : Int)
  | bytes (l : List Nat)
  | err (e : Error)
  deriving DecidableEq, Repr

/-- The constant `i2cLogFormat`. -/
def i2cLogFormat : String := "i2c %4s: [%#.2x:%#.2x] %v (err: %v)\n"

/-- The type `Logger`, `func(string, ...interface{})`, acting on a log sink. -/
abbrev Logger (L : Type) := String → List Arg → L → L

/-- The foreign calls `i2c.go` makes, each with what it returned. -/
inductive Event where
  | ioctl (fd addr errno : Nat)
  | readByteData (fd reg : Nat) (ret : Int) (errno : Nat)
  | readWordData (fd reg : Nat) (ret : Int) (errno : Nat)
  | readBlockData (fd reg length : Nat) (ret : Int) (errno : Nat)
  | writeBlockData (fd reg length : Nat) (values : List Nat) (ret : Int) (errno : Nat)
  | writeByteData (fd reg value : Nat) (ret : Int) (errno : Nat)
  | logger (format : String) (args : List Arg)
  | close (fd : Nat)
  deriving DecidableEq, Repr

/-- A set-slave-address configuration request (`ioctl(fd, I2C_SLAVE, addr)`). -/
def Event.isConfig : Event → Bool
  | Event.ioctl _ _ _ => true
  | _ => false

/-- A call of one of the five `i2c_smbus_*` transfer helpers. -/
def Event.isTransfer : Event → Bool
  | Event.readByteData _ _ _ _ => true
  | Event.readWordData _ _ _ _ => true
  | Event.readBlockData _ _ _ _ _ => true
  | Event.writeBlockData _ _ _ _ _ _ => true
  | Event.writeByteData _ _ _ _ _ => true
  | _ => false

/-- A call of the bus's logger. -/
def Event.isLog : Event → Bool
  | Event.logger _ _ => true
  | _ => false

/-- The byte count a block transfer was called with. -/
def Event.blockLength : Event → Option Nat
  | Event.readBlockData _ _ length _ _ => some length
  | Event.writeBlockData _ _ length _ _ _ => some length
  | _ => none

/-- The operating system as `i2c.go` sees it.  A transfer helper returns its
`__s32` result and the `errno` it left behind. -/
structure Platform (D L : Type) where
  /-- `os.OpenFile(path, os.O_RDWR, os.ModeExclusive)`: a descriptor or an error. -/
  openFile : String → D → Except GoError Nat × D
  /-- `(*os.File).Close`. -/
  closeFile : Nat → D → Error × D
  /-- `syscall.Syscall(SYS_IOCTL, fd, I2C_SLAVE, addr)`: the errno. -/
  ioctlSlave : Nat → Nat → D → Nat × D
  /-- `i2c_smbus_read_byte_data(fd, reg)`. -/
  i2c_smbus_read_byte_data : Nat → Nat → D → (Int × Nat) × D
  /-- `i2c_smbus_read_word_data(fd, reg)`. -/
  i2c_smbus_read_word_data : Nat → Nat → D → (Int × Nat) × D
  /-- `i2c_smbus_read_i2c_block_data(fd, reg, length, values)`: the result, the
  bytes stored through `values`, and the errno. -/
  i2c_smbus_read_i2c_block_data : Nat → Nat → Nat → D → (Int × List Nat × Nat) × D
  /-- `i2c_smbus_write_i2c_block_data(fd, reg, length, values)`. -/
  i2c_smbus_write_i2c_block_data : Nat → Nat → Nat → List Nat → D → (Int × Nat) × D
  /-- `i2c_smbus_write_byte_data(fd, reg, value)`. -/
  i2c_smbus_write_byte_data : Nat → Nat → Nat → D → (Int × Nat) × D
  /-- `log.Printf`. -/
  logPrintf : Logger L

/-- The struct `bus` (without `opLock`). -/
structure bus (L : Type) where
  file : Nat
  remoteAddress : Nat
  logger : Logger L

/-- A bus together with the device state, the log sink, and the trace of
foreign calls made so far. -/
structure Sys (D L : Type) where
  b : bus L
  dev : D
  out : L
  trace : List Event

/-- How a method call ends: it returns, or it panics at run time. -/
inductive Outcome (α : Type) where
  | ret (a : α)
  | indexOutOfRange (index length : Nat)
  deriving DecidableEq, Repr

/-- Modelled from the spec: `C.I2C_SMBUS_BLOCK_MAX` of `linux/i2c-dev.h`, the
protocol's block maximum of 32 bytes. -/
def I2C_SMBUS_BLOCK_MAX : Nat := 32

variable {D L : Type}

/-- `NewBus`: the struct literal sets `file` and `logger`; `remoteAddress` keeps
Go's zero value. -/
def NewBus (P : Platform D L) (id : Nat) (d : D) : Except GoError (bus L) × D :=
  match P.openFile ("/dev/i2c-" ++ toString id) d with
  | (Except.error err, d1) => (Except.error err, d1)
  | (Except.ok file, d1) =>
      (Except.ok { file := file, remoteAddress := 0, logger := P.logPrintf }, d1)

/-- `setRemoteAddress`. -/
def setRemoteAddress (P : Platform D L) (addr : Nat) (s : Sys D L) : Error × Sys D L :=
  if addr ≠ s.b.remoteAddress then
    let r := P.ioctlSlave s.b.file addr s.dev
    let s1 : Sys D L :=
      { s with dev := r.2, trace := s.trace ++ [Event.ioctl s.b.file addr r.1] }
    if r.1 ≠ 0 then
      (some (GoError.errno r.1), s1)
    else
      (none, { s1 with b := { s1.b with remoteAddress := addr } })
  else
    (none, s)

/-- The call `b.logger(format, args...)`. -/
def callLogger (format : String) (args : List Arg) (s : Sys D L) : Sys D L :=
  { s with out := s.b.logger format args s.out,
           trace := s.trace ++ [Event.logger format args] }

/-- `ReadByteFromReg`.  `byte(value)` keeps the low 8 bits of the `__s32`. -/
def ReadByteFromReg (P : Platform D L) (addr reg : Nat) (s : Sys D L) :
    (Nat × Error) × Sys D L :=
  match setRemoteAddress P addr s with
  | (some err, s1) => ((0, some err), s1)
  | (none, s1) =>
      let r := P.i2c_smbus_read_byte_data s1.b.file reg s1.dev
      let value := r.1.1
      let err := cgoErr r.1.2
      let s2 : Sys D L :=
        { s1 with dev := r.2,
                  trace := s1.trace ++ [Event.readByteData s1.b.file reg value r.1.2] }
      let s3 := callLogger i2cLogFormat
        [Arg.str "recv", Arg.byte addr, Arg.byte reg, Arg.int value, Arg.err err] s2
      (((value % 256).toNat, err), s3)

/-- `ReadWordFromReg`.  `uint16(value)` keeps the low 16 bits; the shift left
is a `uint16` shift, so it wraps at 2^16. -/
def ReadWordFromReg (P : Platform D L) (addr reg : Nat) (s : Sys D L) :
    (Nat × Error) × Sys D L :=
  match setRemoteAddress P addr s with
  | (some err, s1) => ((0, some err), s1)
  | (none, s1) =>
      let r := P.i2c_smbus_read_word_data s1.b.file reg s1.dev
      let value := r.1.1
      let err := cgoErr r.1.2
      let s2 : Sys D L :=
        { s1 with dev := r.2,
                  trace := s1.trace ++ [Event.readWordData s1.b.file reg value r.1.2] }
      let s3 := callLogger i2cLogFormat
        [Arg.str "recv", Arg.byte addr, Arg.byte reg, Arg.int value, Arg.err err] s2
      let leValue := (value % 65536).toNat
      (((leValue >>> 8) ||| ((leValue <<< 8) % 65536), err), s3)

/-- The caller's buffer after a C helper stored `data` through a pointer to its
first element. -/
def storeAt (buffer data : List Nat) : List Nat :=
  data.take buffer.length ++ buffer.drop data.length

/-- `ReadSliceFromReg`.  The third component of a returned result is the
caller's buffer after the call.  The test `len(value) > C.I2C_SMBUS_BLOCK_MAX`
has an empty body and does nothing.  The arguments of the C call are evaluated
before the call, so `&value[0]` on an empty slice panics ahead of the transfer;
`C.__u8(len(value))` keeps the low 8 bits of the length. -/
def ReadSliceFromReg (P : Platform D L) (addr reg : Nat) (value : List Nat) (s : Sys D L) :
    Outcome (Int × Error × List Nat) × Sys D L :=
  match setRemoteAddress P addr s with
  | (some err, s1) => (Outcome.ret (0, some err, value), s1)
  | (none, s1) =>
      match value with
      | [] => (Outcome.indexOutOfRange 0 0, s1)
      | v0 :: rest =>
          let length := (v0 :: rest).length % 256
          let r := P.i2c_smbus_read_i2c_block_data s1.b.file reg length s1.dev
          let size := r.1.1
          let err := cgoErr r.1.2.2
          let value1 := storeAt (v0 :: rest) r.1.2.1
          let s2 : Sys D L :=
            { s1 with dev := r.2,
                      trace := s1.trace ++
                        [Event.readBlockData s1.b.file reg length size r.1.2.2] }
          let s3 := callLogger i2cLogFormat
            [Arg.str "recv", Arg.byte addr, Arg.byte reg, Arg.bytes value1, Arg.err err] s2
          (Outcome.ret (size, err, value1), s3)

/-- `WriteSliceToReg`.  As in `ReadSliceFromReg`, the test against
`C.I2C_SMBUS_BLOCK_MAX` does nothing, `&value[0]` panics on an empty slice and
the length is converted to `__u8`. -/
def WriteSliceToReg (P : Platform D L) (addr reg : Nat) (value : List Nat) (s : Sys D L) :
    Outcome (Int × Error) × Sys D L :=
  match setRemoteAddress P addr s with
  | (some err, s1) => (Outcome.ret (0, some err), s1)
  | (none, s1) =>
      match value with
      | [] => (Outcome.indexOutOfRange 0 0, s1)
      | v0 :: rest =>
          let length := (v0 :: rest).length % 256
          let r := P.i2c_smbus_write_i2c_block_data s1.b.file reg length (v0 :: rest) s1.dev
          let size := r.1.1
          let err := cgoErr r.1.2
          let s2 : Sys D L :=
            { s1 with dev := r.2,
                      trace := s1.trace ++
                        [Event.writeBlockData s1.b.file reg length (v0 :: rest) size r.1.2] }
          let s3 := callLogger i2cLogFormat
            [Arg.str "send", Arg.byte addr, Arg.byte reg, Arg.bytes (v0 :: rest), Arg.err err] s2
          (Outcome.ret (size, err), s3)

/-- `WriteByteToReg`. -/
def WriteByteToReg (P : Platform D L) (addr reg value : Nat) (s : Sys D L) :
    Error × Sys D L :=
  match setRemoteAddress P addr s with
  | (some err, s1) => (some err, s1)
  | (none, s1) =>
      let r := P.i2c_smbus_write_byte_data s1.b.file reg value s1.dev
      let err := cgoErr r.1.2
      let s2 : Sys D L :=
        { s1 with dev := r.2,
                  trace := s1.trace ++ [Event.writeByteData s1.b.file reg value r.1.1 r.1.2] }
      let s3 := callLogger i2cLogFormat
        [Arg.str "send", Arg.byte addr, Arg.byte reg, Arg.byte value, Arg.err err] s2
      (err, s3)

/-- `Close`. -/
def Close (P : Platform D L) (s : Sys D L) : Error × Sys D L :=
  let r := P.closeFile s.b.file s.dev
  (r.1, { s with dev := r.2, trace := s.trace ++ [Event.close s.b.file] })

/-- `SetLogger`. -/
def SetLogger (l : Logger L) (s : Sys D L) : Sys D L :=
  { s with b := { s.b with logger := l } }

/-- One call of a transfer operation of the interface `Bus`, with its arguments. -/
inductive Op where
  | readByte (addr reg : Nat)
  | readWord (addr reg : Nat)
  | readSlice (addr reg : Nat) (value : List Nat)
  | writeSlice (addr reg : Nat) (value : List Nat)
  | writeByte (addr reg value : Nat)
  deriving DecidableEq, Repr

/-- The slave address an operation is called with. -/
def Op.addr : Op → Nat
  | Op.readByte addr _ => addr
  | Op.readWord addr _ => addr
  | Op.readSlice addr _ _ => addr
  | Op.writeSlice addr _ _ => addr
  | Op.writeByte addr _ _ => addr

/-- The system state after an operation has run (returned or panicked). -/
def Op.run (P : Platform D L) : Op → Sys D L → Sys D L
  | Op.readByte addr reg, s => (ReadByteFromReg P addr reg s).2
  | Op.readWord addr reg, s => (ReadWordFromReg P addr reg s).2
  | Op.readSlice addr reg value, s => (ReadSliceFromReg P addr reg value s).2
  | Op.writeSlice addr reg value, s => (WriteSliceToReg P addr reg value s).2
  | Op.writeByte addr reg value, s => (WriteByteToReg P addr reg value s).2

/-- The events a step from `s` to `s1` appended to the trace. -/
def emitted (s s1 : Sys D L) : List Event :=
  s1.trace.drop s.trace.length

/-- The number of set-slave-address configuration requests among events. -/
def configCount (t : List Event) : Nat :=
  t.countP Event.isConfig

/-- The state in which the first operation on a bus returned by `NewBus` runs. -/
def fresh (b : bus L) (d : D) (out : L) : Sys D L :=
  { b := b, dev := d, out := out, trace := [] }

/-- Modelled from the spec: the fake device of the testable properties, which
stores the bytes written to each register of each slave and hands them back on
a read.  `slave` is the address the controller is configured to (0 on a newly
opened descriptor, as in the Linux driver); `mem` maps (slave, register) to the
bytes last written, newest entry first. -/
structure FakeDevice where
  slave : Nat
  mem : List ((Nat × Nat) × List Nat)
  deriving DecidableEq, Repr

/-- The bytes last written to a register of the selected slave. -/
def FakeDevice.load (d : FakeDevice) (reg : Nat) : Option (List Nat) :=
  d.mem.lookup (d.slave, reg)

/-- Record the bytes written to a register of the selected slave. -/
def FakeDevice.store (d : FakeDevice) (reg : Nat) (data : List Nat) : FakeDevice :=
  { d with mem := ((d.slave, reg), data) :: d.mem }

/-- A newly opened fake device: nothing written yet. -/
def FakeDevice.init : FakeDevice :=
  { slave := 0, mem := [] }

/-- Modelled from the spec: the platform interface implemented by the fake
device.  `rejects addr` says that no device acknowledges `addr`, so that the
configuration request fails with `EINVAL` (22).  Reading a register never
written fails with `EREMOTEIO` (121) and result -1.  Block transfers move at
most `I2C_SMBUS_BLOCK_MAX` bytes, as the helpers of `linux/i2c-dev.h` do; a
write returns 0 and a block read returns the number of bytes read. -/
def fakePlatform (rejects : Nat → Bool) :
    Platform FakeDevice (List (String × List Arg)) where
  openFile := fun _ d => (Except.ok 3, d)
  closeFile := fun _ d => (none, d)
  ioctlSlave := fun _ addr d =>
    if rejects addr then (22, d) else (0, { d with slave := addr })
  i2c_smbus_read_byte_data := fun _ reg d =>
    match d.load reg with
    | some (x :: _) => (((x : Int), 0), d)
    | _ => ((-1, 121), d)
  i2c_smbus_read_word_data := fun _ reg d =>
    match d.load reg with
    | some (x :: y :: _) => ((((x + 256 * y : Nat) : Int), 0), d)
    | _ => ((-1, 121), d)
  i2c_smbus_read_i2c_block_data := fun _ reg length d =>
    match d.load reg with
    | some data =>
        let got := data.take (min length I2C_SMBUS_BLOCK_MAX)
        (((got.length : Int), got, 0), d)
    | none => ((-1, [], 121), d)
  i2c_smbus_write_i2c_block_data := fun _ reg length values d =>
    ((0, 0), d.store reg (values.take (min length I2C_SMBUS_BLOCK_MAX)))
  i2c_smbus_write_byte_data := fun _ reg value d =>
    ((0, 0), d.store reg [value])
  logPrintf := fun format args out => out ++ [(format, args)]

/-- The fake device on which every slave address is acknowledged. -/
def fakeAll : Platform FakeDevice (List (String × List Arg)) :=
  fakePlatform (fun _ => false)

/-- The fake device on which only 7-bit slave addresses are acknowledged. -/
def fake7 : Platform FakeDevice (List (String × List Arg)) :=
  fakePlatform (fun addr => decide (127 < addr))

/-- A bus opened on the fake device by `NewBus`, before its first operation. -/
def freshFake (P : Platform FakeDevice (List (String × List Arg))) :
    Sys FakeDevice (List (String × List Arg)) :=
  match NewBus P 1 FakeDevice.init with
  | (Except.ok b, d) => fresh b d []
  | (Except.error _, d) => fresh { file := 0, remoteAddress := 0, logger := P.logPrintf } d []

/-- The bus on the fake device after the wire bytes 0x12, 0x34 were written to
register 0x10 of slave 0x50, so that a word read there returns 0x3412. -/
def wordState : Sys FakeDevice (List (String × List Arg)) :=
  Op.run fakeAll (Op.writeSlice 0x50 0x10 [0x12, 0x34]) (freshFake fakeAll)

/-! ## Auxiliary facts -/

theorem swap_or_mod (v : Nat) (hv : v < 65536) :
    (v >>> 8) ||| ((v <<< 8) % 65536) = ((v >>> 8) ||| (v <<< 8)) % 2 ^ 16 := by
  apply Nat.eq_of_testBit_eq
  intro i
  have h8 : v >>> 8 < 2 ^ 16 := by
    rw [Nat.shiftRight_eq_div_pow]; omega
  simp only [Nat.testBit_or, Nat.testBit_mod_two_pow, show (65536 : Nat) = 2 ^ 16 from rfl]
  by_cases hi : i < 16
  · simp [hi]
  · have hbit : (v >>> 8).testBit i = false := by
      apply Nat.testBit_lt_two_pow
      exact lt_of_lt_of_le h8 (Nat.pow_le_pow_right (by decide) (by omega))
    simp [hi, hbit]

theorem swap_bytes16 (v : Nat) (hv : v < 65536) :
    (v >>> 8) ||| ((v <<< 8) % 65536) = (v % 256) * 256 + v / 256 := by
  have h1 : (v <<< 8) % 65536 = 2 ^ 8 * (v % 256) := by
    rw [Nat.shiftLeft_eq]; omega
  have h2 : v >>> 8 = v / 256 := by
    rw [Nat.shiftRight_eq_div_pow]
  have h3 : v / 256 < 2 ^ 8 := by omega
  rw [h1, h2, Nat.or_comm, ← Nat.mul_add_lt_is_or h3]
  omega

theorem emitted_append (s s1 : Sys D L) (t : List Event) (h : s1.trace = s.trace ++ t) :
    emitted s s1 = t := by
  simp [emitted, h]

theorem emitted_self (s : Sys D L) : emitted s s = [] := by
  simp [emitted]

theorem setRemoteAddress_hit (P : Platform D L) (addr : Nat) (s : Sys D L)
    (h : addr = s.b.remoteAddress) : setRemoteAddress P addr s = (none, s) := by
  simp [setRemoteAddress, h]

theorem setRemoteAddress_ok (P : Platform D L) (addr : Nat) (s : Sys D L)
    (h : addr ≠ s.b.remoteAddress) (h0 : (P.ioctlSlave s.b.file addr s.dev).1 = 0) :
    setRemoteAddress P addr s =
      (none, { b := { s.b with remoteAddress := addr },
               dev := (P.ioctlSlave s.b.file addr s.dev).2,
               out := s.out,
               trace := s.trace ++ [Event.ioctl s.b.file addr 0] }) := by
  simp [setRemoteAddress, h, h0]

theorem setRemoteAddress_fail (P : Platform D L) (addr : Nat) (s : Sys D L)
    (h : addr ≠ s.b.remoteAddress) (h0 : (P.ioctlSlave s.b.file addr s.dev).1 ≠ 0) :
    setRemoteAddress P addr s =
      (some (GoError.errno (P.ioctlSlave s.b.file addr s.dev).1),
       { s with dev := (P.ioctlSlave s.b.file addr s.dev).2,
                trace := s.trace ++
                  [Event.ioctl s.b.file addr (P.ioctlSlave s.b.file addr s.dev).1] }) := by
  simp [setRemoteAddress, h, h0]

/-- A successful selection on a miss means the request returned errno 0. -/
theorem ioctl_ok_of_selected (P : Platform D L) (addr : Nat) (s : Sys D L)
    (h : addr ≠ s.b.remoteAddress) (hsel : (setRemoteAddress P addr s).1 = none) :
    (P.ioctlSlave s.b.file addr s.dev).1 = 0 := by
  by_contra h0
  rw [setRemoteAddress_fail P addr s h h0] at hsel
  simp at hsel

theorem ReadByteFromReg_failed (P : Platform D L) (addr reg : Nat) (s s1 : Sys D L)
    (e : GoError) (h : setRemoteAddress P addr s = (some e, s1)) :
    ReadByteFromReg P addr reg s = ((0, some e), s1) := by
  simp [ReadByteFromReg, h]

theorem ReadWordFromReg_failed (P : Platform D L) (addr reg : Nat) (s s1 : Sys D L)
    (e : GoError) (h : setRemoteAddress P addr s = (some e, s1)) :
    ReadWordFromReg P addr reg s = ((0, some e), s1) := by
  simp [ReadWordFromReg, h]

theorem ReadSliceFromReg_failed (P : Platform D L) (addr reg : Nat) (value : List Nat)
    (s s1 : Sys D L) (e : GoError) (h : setRemoteAddress P addr s = (some e, s1)) :
    ReadSliceFromReg P addr reg value s = (Outcome.ret (0, some e, value), s1) := by
  simp [ReadSliceFromReg, h]

theorem WriteSliceToReg_failed (P : Platform D L) (addr reg : Nat) (value : List Nat)
    (s s1 : Sys D L) (e : GoError) (h : setRemoteAddress P addr s = (some e, s1)) :
    WriteSliceToReg P addr reg value s = (Outcome.ret (0, some e), s1) := by
  simp [WriteSliceToReg, h]

theorem WriteByteToReg_failed (P : Platform D L) (addr reg value : Nat) (s s1 : Sys D L)
    (e : GoError) (h : setRemoteAddress P addr s = (some e, s1)) :
    WriteByteToReg P addr reg value s = (some e, s1) := by
  simp [WriteByteToReg, h]

theorem ReadByteFromReg_selected (P : Platform D L) (addr reg : Nat) (s s1 : Sys D L)
    (h : setRemoteAddress P addr s = (none, s1)) :
    ReadByteFromReg P addr reg s =
      ((((P.i2c_smbus_read_byte_data s1.b.file reg s1.dev).1.1 % 256).toNat,
        cgoErr (P.i2c_smbus_read_byte_data s1.b.file reg s1.dev).1.2),
       { b := s1.b,
         dev := (P.i2c_smbus_read_byte_data s1.b.file reg s1.dev).2,
         out := s1.b.logger i2cLogFormat
           [Arg.str "recv", Arg.byte addr, Arg.byte reg,
            Arg.int (P.i2c_smbus_read_byte_data s1.b.file reg s1.dev).1.1,
            Arg.err (cgoErr (P.i2c_smbus_read_byte_data s1.b.file reg s1.dev).1.2)] s1.out,
         trace := s1.trace ++
           [Event.readByteData s1.b.file reg
              (P.i2c_smbus_read_byte_data s1.b.file reg s1.dev).1.1
              (P.i2c_smbus_read_byte_data s1.b.file reg s1.dev).1.2,
            Event.logger i2cLogFormat
              [Arg.str "recv", Arg.byte addr, Arg.byte reg,
               Arg.int (P.i2c_smbus_read_byte_data s1.b.file reg s1.dev).1.1,
               Arg.err (cgoErr (P.i2c_smbus_read_byte_data s1.b.file reg s1.dev).1.2)]] }) := by
  simp [ReadByteFromReg, h, callLogger]

theorem ReadWordFromReg_selected (P : Platform D L) (addr reg : Nat) (s s1 : Sys D L)
    (h : setRemoteAddress P addr s = (none, s1)) :
    ReadWordFromReg P addr reg s =
      (((((P.i2c_smbus_read_word_data s1.b.file reg s1.dev).1.1 % 65536).toNat >>> 8) |||
          ((((P.i2c_smbus_read_word_data s1.b.file reg s1.dev).1.1 % 65536).toNat <<< 8)
            % 65536),
        cgoErr (P.i2c_smbus_read_word_data s1.b.file reg s1.dev).1.2),
       { b := s1.b,
         dev := (P.i2c_smbus_read_word_data s1.b.file reg s1.dev).2,
         out := s1.b.logger i2cLogFormat
           [Arg.str "recv", Arg.byte addr, Arg.byte reg,
            Arg.int (P.i2c_smbus_read_word_data s1.b.file reg s1.dev).1.1,
            Arg.err (cgoErr (P.i2c_smbus_read_word_data s1.b.file reg s1.dev).1.2)] s1.out,
         trace := s1.trace ++
           [Event.readWordData s1.b.file reg
              (P.i2c_smbus_read_word_data s1.b.file reg s1.dev).1.1
              (P.i2c_smbus_read_word_data s1.b.file reg s1.dev).1.2,
            Event.logger i2cLogFormat
              [Arg.str "recv", Arg.byte addr, Arg.byte reg,
               Arg.int (P.i2c_smbus_read_word_data s1.b.file reg s1.dev).1.1,
               Arg.err (cgoErr (P.i2c_smbus_read_word_data s1.b.file reg s1.dev).1.2)]] }) := by
  simp [ReadWordFromReg, h, callLogger]

theorem ReadSliceFromReg_selected (P : Platform D L) (addr reg : Nat) (value : List Nat)
    (s s1 : Sys D L) (h : setRemoteAddress P addr s = (none, s1)) (hne : value ≠ []) :
    ReadSliceFromReg P addr reg value s =
      (Outcome.ret
        ((P.i2c_smbus_read_i2c_block_data s1.b.file reg (value.length % 256) s1.dev).1.1,
         cgoErr (P.i2c_smbus_read_i2c_block_data s1.b.file reg (value.length % 256) s1.dev).1.2.2,
         storeAt value
           (P.i2c_smbus_read_i2c_block_data s1.b.file reg (value.length % 256) s1.dev).1.2.1),
       { b := s1.b,
         dev := (P.i2c_smbus_read_i2c_block_data s1.b.file reg (value.length % 256) s1.dev).2,
         out := s1.b.logger i2cLogFormat
           [Arg.str "recv", Arg.byte addr, Arg.byte reg,
            Arg.bytes (storeAt value
              (P.i2c_smbus_read_i2c_block_data s1.b.file reg (value.length % 256) s1.dev).1.2.1),
            Arg.err (cgoErr
              (P.i2c_smbus_read_i2c_block_data s1.b.file reg (value.length % 256) s1.dev).1.2.2)]
           s1.out,
         trace := s1.trace ++
           [Event.readBlockData s1.b.file reg (value.length % 256)
              (P.i2c_smbus_read_i2c_block_data s1.b.file reg (value.length % 256) s1.dev).1.1
              (P.i2c_smbus_read_i2c_block_data s1.b.file reg (value.length % 256) s1.dev).1.2.2,
            Event.logger i2cLogFormat
              [Arg.str "recv", Arg.byte addr, Arg.byte reg,
               Arg.bytes (storeAt value
                 (P.i2c_smbus_read_i2c_block_data s1.b.file reg (value.length % 256)
                   s1.dev).1.2.1),
               Arg.err (cgoErr
                 (P.i2c_smbus_read_i2c_block_data s1.b.file reg (value.length % 256)
                   s1.dev).1.2.2)]] }) := by
  cases value with
  | nil => exact absurd rfl hne
  | cons v0 rest => simp [ReadSliceFromReg, h, callLogger]

theorem WriteSliceToReg_selected (P : Platform D L) (addr reg : Nat) (value : List Nat)
    (s s1 : Sys D L) (h : setRemoteAddress P addr s = (none, s1)) (hne : value ≠ []) :
    WriteSliceToReg P addr reg value s =
      (Outcome.ret
        ((P.i2c_smbus_write_i2c_block_data s1.b.file reg (value.length % 256) value s1.dev).1.1,
         cgoErr
           (P.i2c_smbus_write_i2c_block_data s1.b.file reg (value.length % 256) value s1.dev).1.2),
       { b := s1.b,
         dev :=
           (P.i2c_smbus_write_i2c_block_data s1.b.file reg (value.length % 256) value s1.dev).2,
         out := s1.b.logger i2cLogFormat
           [Arg.str "send", Arg.byte addr, Arg.byte reg, Arg.bytes value,
            Arg.err (cgoErr
              (P.i2c_smbus_write_i2c_block_data s1.b.file reg (value.length % 256) value
                s1.dev).1.2)]
           s1.out,
         trace := s1.trace ++
           [Event.writeBlockData s1.b.file reg (value.length % 256) value
              (P.i2c_smbus_write_i2c_block_data s1.b.file reg (value.length % 256) value
                s1.dev).1.1
              (P.i2c_smbus_write_i2c_block_data s1.b.file reg (value.length % 256) value
                s1.dev).1.2,
            Event.logger i2cLogFormat
              [Arg.str "send", Arg.byte addr, Arg.byte reg, Arg.bytes value,
               Arg.err (cgoErr
                 (P.i2c_smbus_write_i2c_block_data s1.b.file reg (value.length % 256) value
                   s1.dev).1.2)]] }) := by
  cases value with
  | nil => exact absurd rfl hne
  | cons v0 rest => simp [WriteSliceToReg, h, callLogger]

theorem WriteByteToReg_selected (P : Platform D L) (addr reg value : Nat) (s s1 : Sys D L)
    (h : setRemoteAddress P addr s = (none, s1)) :
    WriteByteToReg P addr reg value s =
      (cgoErr (P.i2c_smbus_write_byte_data s1.b.file reg value s1.dev).1.2,
       { b := s1.b,
         dev := (P.i2c_smbus_write_byte_data s1.b.file reg value s1.dev).2,
         out := s1.b.logger i2cLogFormat
           [Arg.str "send", Arg.byte addr, Arg.byte reg, Arg.byte value,
            Arg.err (cgoErr (P.i2c_smbus_write_byte_data s1.b.file reg value s1.dev).1.2)]
           s1.out,
         trace := s1.trace ++
           [Event.writeByteData s1.b.file reg value
              (P.i2c_smbus_write_byte_data s1.b.file reg value s1.dev).1.1
              (P.i2c_smbus_write_byte_data s1.b.file reg value s1.dev).1.2,
            Event.logger i2cLogFormat
              [Arg.str "send", Arg.byte addr, Arg.byte reg, Arg.byte value,
               Arg.err (cgoErr (P.i2c_smbus_write_byte_data s1.b.file reg value s1.dev).1.2)]] }) := by
  simp [WriteByteToReg, h, callLogger]

theorem ReadSliceFromReg_empty (P : Platform D L) (addr reg : Nat) (s s1 : Sys D L)
    (h : setRemoteAddress P addr s = (none, s1)) :
    ReadSliceFromReg P addr reg [] s = (Outcome.indexOutOfRange 0 0, s1) := by
  simp [ReadSliceFromReg, h]

theorem WriteSliceToReg_empty (P : Platform D L) (addr reg : Nat) (s s1 : Sys D L)
    (h : setRemoteAddress P addr s = (none, s1)) :
    WriteSliceToReg P addr reg [] s = (Outcome.indexOutOfRange 0 0, s1) := by
  simp [WriteSliceToReg, h]

/-- After the selection step an operation appends no configuration request and
leaves the bus record alone. -/
theorem Op.run_after_selection (P : Platform D L) (op : Op) (s : Sys D L) :
    ∃ rest, (op.run P s).trace = (setRemoteAddress P op.addr s).2.trace ++ rest ∧
      configCount rest = 0 ∧ (op.run P s).b = (setRemoteAddress P op.addr s).2.b := by
  rcases hsel : setRemoteAddress P op.addr s with ⟨r, s1⟩
  cases r with
  | some e =>
      refine ⟨[], ?_, by simp [configCount], ?_⟩ <;>
        cases op <;> simp only [Op.addr] at hsel <;>
        simp [Op.run, ReadByteFromReg_failed _ _ _ _ _ _ hsel,
          ReadWordFromReg_failed _ _ _ _ _ _ hsel, ReadSliceFromReg_failed _ _ _ _ _ _ _ hsel,
          WriteSliceToReg_failed _ _ _ _ _ _ _ hsel, WriteByteToReg_failed _ _ _ _ _ _ _ hsel]
  | none =>
      cases op with
      | readByte addr reg =>
          simp only [Op.addr] at hsel
          exact ⟨_, by rw [Op.run, ReadByteFromReg_selected P addr reg s s1 hsel],
            by simp [configCount, Event.isConfig],
            by rw [Op.run, ReadByteFromReg_selected P addr reg s s1 hsel]⟩
      | readWord addr reg =>
          simp only [Op.addr] at hsel
          exact ⟨_, by rw [Op.run, ReadWordFromReg_selected P addr reg s s1 hsel],
            by simp [configCount, Event.isConfig],
            by rw [Op.run, ReadWordFromReg_selected P addr reg s s1 hsel]⟩
      | readSlice addr reg value =>
          simp only [Op.addr] at hsel
          by_cases hv : value = []
          · subst hv
            exact ⟨[], by rw [Op.run, ReadSliceFromReg_empty P addr reg s s1 hsel]; simp,
              by simp [configCount],
              by rw [Op.run, ReadSliceFromReg_empty P addr reg s s1 hsel]⟩
          · exact ⟨_, by rw [Op.run, ReadSliceFromReg_selected P addr reg value s s1 hsel hv],
              by simp [configCount, Event.isConfig],
              by rw [Op.run, ReadSliceFromReg_selected P addr reg value s s1 hsel hv]⟩
      | writeSlice addr reg value =>
          simp only [Op.addr] at hsel
          by_cases hv : value = []
          · subst hv
            exact ⟨[], by rw [Op.run, WriteSliceToReg_empty P addr reg s s1 hsel]; simp,
              by simp [configCount],
              by rw [Op.run, WriteSliceToReg_empty P addr reg s s1 hsel]⟩
          · exact ⟨_, by rw [Op.run, WriteSliceToReg_selected P addr reg value s s1 hsel hv],
              by simp [configCount, Event.isConfig],
              by rw [Op.run, WriteSliceToReg_selected P addr reg value s s1 hsel hv]⟩
      | writeByte addr reg value =>
          simp only [Op.addr] at hsel
          exact ⟨_, by rw [Op.run, WriteByteToReg_selected P addr reg value s s1 hsel],
            by simp [configCount, Event.isConfig],
            by rw [Op.run, WriteByteToReg_selected P addr reg value s s1 hsel]⟩

/-- The trace after an operation extends the trace before it. -/
theorem Op.run_trace (P : Platform D L) (op : Op) (s : Sys D L) :
    (op.run P s).trace = s.trace ++ emitted s (op.run P s) := by
  obtain ⟨rest, hrest, -, -⟩ := Op.run_after_selection P op s
  have hsel : ∃ t, (setRemoteAddress P op.addr s).2.trace = s.trace ++ t := by
    by_cases hc : op.addr = s.b.remoteAddress
    · exact ⟨[], by rw [setRemoteAddress_hit P op.addr s hc]; simp⟩
    · by_cases h0 : (P.ioctlSlave s.b.file op.addr s.dev).1 = 0
      · exact ⟨_, by rw [setRemoteAddress_ok P op.addr s hc h0]⟩
      · exact ⟨_, by rw [setRemoteAddress_fail P op.addr s hc h0]⟩
  obtain ⟨t, ht⟩ := hsel
  have h : (op.run P s).trace = s.trace ++ (t ++ rest) := by
    rw [hrest, ht, List.append_assoc]
  rw [emitted_append s _ _ h, h]

/-- An operation addressing the cached address issues no configuration request
and keeps the cached address. -/
theorem Op.run_hit (P : Platform D L) (op : Op) (s : Sys D L)
    (h : op.addr = s.b.remoteAddress) :
    configCount (emitted s (op.run P s)) = 0 ∧ (op.run P s).b = s.b := by
  obtain ⟨rest, hrest, hcount, hb⟩ := Op.run_after_selection P op s
  rw [setRemoteAddress_hit P op.addr s h] at hrest hb
  exact ⟨by rw [emitted_append s _ _ hrest]; exact hcount, hb⟩

/-- An operation addressing another address than the cached one starts with the
configuration request for its address, and issues no second one. -/
theorem Op.run_miss (P : Platform D L) (op : Op) (s : Sys D L)
    (h : op.addr ≠ s.b.remoteAddress) :
    ∃ rest, emitted s (op.run P s) =
        Event.ioctl s.b.file op.addr (P.ioctlSlave s.b.file op.addr s.dev).1 :: rest ∧
      configCount rest = 0 ∧
      (op.run P s).b.file = s.b.file ∧
      (op.run P s).b.remoteAddress =
        if (P.ioctlSlave s.b.file op.addr s.dev).1 = 0 then op.addr else s.b.remoteAddress := by
  obtain ⟨rest, hrest, hcount, hb⟩ := Op.run_after_selection P op s
  refine ⟨rest, ?_, hcount, ?_, ?_⟩
  · apply emitted_append
    rw [hrest]
    by_cases h0 : (P.ioctlSlave s.b.file op.addr s.dev).1 = 0
    · rw [setRemoteAddress_ok P op.addr s h h0, h0]; simp
    · rw [setRemoteAddress_fail P op.addr s h h0]; simp
  · rw [hb]
    by_cases h0 : (P.ioctlSlave s.b.file op.addr s.dev).1 = 0
    · rw [setRemoteAddress_ok P op.addr s h h0]
    · rw [setRemoteAddress_fail P op.addr s h h0]
  · rw [hb]
    by_cases h0 : (P.ioctlSlave s.b.file op.addr s.dev).1 = 0
    · rw [setRemoteAddress_ok P op.addr s h h0, if_pos h0]
    · rw [setRemoteAddress_fail P op.addr s h h0, if_neg h0]

/-! ## The claims -/

/-- C1: when address selection succeeds and the word transfer produces a 16-bit
value `v`, `ReadWordFromReg` returns `v` with its two bytes exchanged, that is
`((v >> 8) | (v << 8)) mod 2^16`, which is `(v mod 256) * 256 + v / 256`; a wire
value 0x3412 is returned as 0x1234.  The transfer's error is returned with it. -/
theorem ReadWordFromReg_swaps_bytes (P : Platform D L) (addr reg : Nat) (s : Sys D L) (v : Nat)
    (hsel : (setRemoteAddress P addr s).1 = none)
    (hv : v < 65536)
    (hwire : (P.i2c_smbus_read_word_data (setRemoteAddress P addr s).2.b.file reg
      (setRemoteAddress P addr s).2.dev).1.1 = (v : Int)) :
    (ReadWordFromReg P addr reg s).1.1 = ((v >>> 8) ||| (v <<< 8)) % 2 ^ 16 ∧
    (ReadWordFromReg P addr reg s).1.1 = (v % 256) * 256 + v / 256 ∧
    (v = 0x3412 → (ReadWordFromReg P addr reg s).1.1 = 0x1234) ∧
    (ReadWordFromReg P addr reg s).1.2 =
      cgoErr (P.i2c_smbus_read_word_data (setRemoteAddress P addr s).2.b.file reg
        (setRemoteAddress P addr s).2.dev).1.2 := by
  rcases hs : setRemoteAddress P addr s with ⟨r, s1⟩
  rw [hs] at hsel hwire
  simp only at hsel hwire
  subst hsel
  rw [ReadWordFromReg_selected P addr reg s s1 hs]
  simp only [hwire]
  have hle : ((v : Int) % 65536).toNat = v := by omega
  rw [hle]
  refine ⟨swap_or_mod v hv, swap_bytes16 v hv, ?_, trivial⟩
  intro h
  rw [swap_bytes16 v hv, h]

theorem ReadWordFromReg_swaps_bytes_witness :
    (setRemoteAddress fakeAll 0x50 wordState).1 = none ∧
    (fakeAll.i2c_smbus_read_word_data (setRemoteAddress fakeAll 0x50 wordState).2.b.file 0x10
      (setRemoteAddress fakeAll 0x50 wordState).2.dev).1.1 = ((0x3412 : Nat) : Int) ∧
    (ReadWordFromReg fakeAll 0x50 0x10 wordState).1.1 = 0x1234 :=
  ⟨by decide, by decide,
   (ReadWordFromReg_swaps_bytes fakeAll 0x50 0x10 wordState 0x3412
      (by decide) (by decide) (by decide)).2.2.1 rfl⟩

/-- C2: when `addr` is not the cached address and the first selection succeeds,
the first of two consecutive operations addressing `addr` issues exactly one
set-slave-address configuration request, the second issues none, and the two
together issue exactly one. -/
theorem same_address_twice_one_config (P : Platform D L) (s : Sys D L) (op1 op2 : Op)
    (addr : Nat) (h1 : op1.addr = addr) (h2 : op2.addr = addr)
    (hne : addr ≠ s.b.remoteAddress)
    (hsel : (setRemoteAddress P addr s).1 = none) :
    configCount (emitted s (op1.run P s)) = 1 ∧
    configCount (emitted (op1.run P s) (op2.run P (op1.run P s))) = 0 ∧
    configCount (emitted s (op2.run P (op1.run P s))) = 1 ∧
    (op2.run P (op1.run P s)).trace =
      s.trace ++ emitted s (op1.run P s) ++
        emitted (op1.run P s) (op2.run P (op1.run P s)) := by
  subst h1
  have h0 := ioctl_ok_of_selected P op1.addr s hne hsel
  obtain ⟨rest, hem, hcount, -, hb⟩ := Op.run_miss P op1 s hne
  rw [if_pos h0] at hb
  have hhit := Op.run_hit P op2 (op1.run P s) (by rw [h2, hb])
  have ht1 := Op.run_trace P op1 s
  have ht2 := Op.run_trace P op2 (op1.run P s)
  have hc1 : configCount (emitted s (op1.run P s)) = 1 := by
    rw [hem]
    simp only [configCount, List.countP_cons, Event.isConfig] at hcount ⊢
    simp [hcount]
  have hall : (op2.run P (op1.run P s)).trace =
      s.trace ++ (emitted s (op1.run P s) ++
        emitted (op1.run P s) (op2.run P (op1.run P s))) := by
    rw [ht2, ht1, List.append_assoc]
  refine ⟨hc1, hhit.1, ?_, by rw [List.append_assoc]; exact hall⟩
  rw [emitted_append s _ _ hall]
  have hc2 := hhit.1
  simp only [configCount, List.countP_append] at hc1 hc2 ⊢
  omega

theorem same_address_twice_one_config_witness :
    (setRemoteAddress fakeAll 0x50 (freshFake fakeAll)).1 = none ∧
    configCount (emitted (freshFake fakeAll)
      (Op.run fakeAll (Op.readByte 0x50 0x10)
        (Op.run fakeAll (Op.writeByte 0x50 0x10 0x42) (freshFake fakeAll)))) = 1 ∧
    (ReadByteFromReg fakeAll 0x50 0x10
      (Op.run fakeAll (Op.writeByte 0x50 0x10 0x42) (freshFake fakeAll))).1 = (0x42, none) :=
  ⟨by decide,
   (same_address_twice_one_config fakeAll (freshFake fakeAll)
      (Op.writeByte 0x50 0x10 0x42) (Op.readByte 0x50 0x10) 0x50 rfl rfl
      (by decide) (by decide)).2.2.1,
   by decide⟩

/-- C3: when `setRemoteAddress` issues a configuration request that fails, it
returns that errno as its error and leaves the cached address as it was; every
following operation addressing the same `addr` starts by issuing the request
again; and whenever the cached address differs after `setRemoteAddress`, or after
a whole operation, a configuration request for the new address was issued and
returned errno 0. -/
theorem failed_config_keeps_cache (P : Platform D L) (s : Sys D L) (addr : Nat)
    (hne : addr ≠ s.b.remoteAddress)
    (hfail : (P.ioctlSlave s.b.file addr s.dev).1 ≠ 0) :
    (setRemoteAddress P addr s).1 =
      some (GoError.errno (P.ioctlSlave s.b.file addr s.dev).1) ∧
    (setRemoteAddress P addr s).2.b.remoteAddress = s.b.remoteAddress ∧
    (∀ op : Op, op.addr = addr →
      (emitted (setRemoteAddress P addr s).2 (op.run P (setRemoteAddress P addr s).2)).head? =
        some (Event.ioctl s.b.file addr
          (P.ioctlSlave s.b.file addr (setRemoteAddress P addr s).2.dev).1)) ∧
    (∀ (s0 : Sys D L) (a : Nat),
      (setRemoteAddress P a s0).2.b.remoteAddress ≠ s0.b.remoteAddress →
        (P.ioctlSlave s0.b.file a s0.dev).1 = 0 ∧
        (setRemoteAddress P a s0).2.b.remoteAddress = a ∧
        emitted s0 (setRemoteAddress P a s0).2 = [Event.ioctl s0.b.file a 0]) ∧
    (∀ (s0 : Sys D L) (op : Op),
      (op.run P s0).b.remoteAddress ≠ s0.b.remoteAddress →
        (P.ioctlSlave s0.b.file op.addr s0.dev).1 = 0 ∧
        (op.run P s0).b.remoteAddress = op.addr ∧
        (emitted s0 (op.run P s0)).head? = some (Event.ioctl s0.b.file op.addr 0)) := by
  have hs := setRemoteAddress_fail P addr s hne hfail
  refine ⟨by rw [hs], by rw [hs], ?_, ?_, ?_⟩
  · intro op hop
    subst hop
    have hne1 : op.addr ≠ (setRemoteAddress P op.addr s).2.b.remoteAddress := by
      rw [hs]; exact hne
    obtain ⟨rest, hem, -, -, -⟩ := Op.run_miss P op (setRemoteAddress P op.addr s).2 hne1
    rw [hem]
    simp [hs]
  · intro s0 a hch
    by_cases hc : a = s0.b.remoteAddress
    · rw [setRemoteAddress_hit P a s0 hc] at hch
      exact absurd rfl hch
    · by_cases h0 : (P.ioctlSlave s0.b.file a s0.dev).1 = 0
      · refine ⟨h0, by rw [setRemoteAddress_ok P a s0 hc h0], ?_⟩
        apply emitted_append
        rw [setRemoteAddress_ok P a s0 hc h0]
      · rw [setRemoteAddress_fail P a s0 hc h0] at hch
        exact absurd rfl hch
  · intro s0 op hch
    by_cases hc : op.addr = s0.b.remoteAddress
    · rw [(Op.run_hit P op s0 hc).2] at hch
      exact absurd rfl hch
    · obtain ⟨rest, hem, -, -, hb⟩ := Op.run_miss P op s0 hc
      by_cases h0 : (P.ioctlSlave s0.b.file op.addr s0.dev).1 = 0
      · rw [if_pos h0] at hb
        exact ⟨h0, hb, by rw [hem, h0]; rfl⟩
      · rw [if_neg h0] at hb
        exact absurd hb hch

theorem failed_config_keeps_cache_witness :
    (setRemoteAddress fake7 0x80 (freshFake fake7)).1 = some (GoError.errno 22) ∧
    (setRemoteAddress fake7 0x80 (freshFake fake7)).2.b.remoteAddress = 0 ∧
    (emitted (setRemoteAddress fake7 0x80 (freshFake fake7)).2
      (Op.run fake7 (Op.readByte 0x80 0x10)
        (setRemoteAddress fake7 0x80 (freshFake fake7)).2)).head? =
      some (Event.ioctl 3 0x80 22) :=
  have h := failed_config_keeps_cache fake7 (freshFake fake7) 0x80 (by decide) (by decide)
  ⟨h.1, h.2.1, h.2.2.1 (Op.readByte 0x80 0x10) rfl⟩

/-- C4 (as the code has it): a bus returned by `NewBus` has cached address 0,
Go's zero value, and the default logger.  For every address other than 0 the
first operation on it starts with the set-slave-address configuration request
for that address, ahead of its transfer; for address 0 the first operation
issues no configuration request. -/
theorem first_operation_config (P : Platform D L) (id : Nat) (d d1 : D) (b : bus L) (out : L)
    (hnew : NewBus P id d = (Except.ok b, d1)) :
    b.remoteAddress = 0 ∧ b.logger = P.logPrintf ∧
    ∀ op : Op,
      (op.addr ≠ 0 →
        (emitted (fresh b d1 out) (op.run P (fresh b d1 out))).head? =
          some (Event.ioctl b.file op.addr (P.ioctlSlave b.file op.addr d1).1)) ∧
      (op.addr = 0 →
        configCount (emitted (fresh b d1 out) (op.run P (fresh b d1 out))) = 0) := by
  have hb : b.remoteAddress = 0 ∧ b.logger = P.logPrintf := by
    unfold NewBus at hnew
    rcases hopen : P.openFile ("/dev/i2c-" ++ toString id) d with ⟨r, d2⟩
    rw [hopen] at hnew
    cases r with
    | error e => simp at hnew
    | ok file =>
        simp only [Prod.mk.injEq, Except.ok.injEq] at hnew
        rw [← hnew.1]
        exact ⟨rfl, rfl⟩
  refine ⟨hb.1, hb.2, ?_⟩
  intro op
  constructor
  · intro hop
    have hne : op.addr ≠ (fresh b d1 out).b.remoteAddress := by
      simpa [fresh, hb.1] using hop
    obtain ⟨rest, hem, -, -, -⟩ := Op.run_miss P op (fresh b d1 out) hne
    rw [hem]
    rfl
  · intro hop
    exact (Op.run_hit P op (fresh b d1 out) (by simp [fresh, hb.1, hop])).1

theorem first_operation_config_witness :
    NewBus fakeAll 1 FakeDevice.init =
      (Except.ok { file := 3, remoteAddress := 0, logger := fakeAll.logPrintf },
       FakeDevice.init) ∧
    (emitted (fresh { file := 3, remoteAddress := 0, logger := fakeAll.logPrintf }
        FakeDevice.init [])
      (Op.run fakeAll (Op.writeByte 0x50 0x10 0x42)
        (fresh { file := 3, remoteAddress := 0, logger := fakeAll.logPrintf }
          FakeDevice.init []))).head? = some (Event.ioctl 3 0x50 0) :=
  ⟨rfl,
   ((first_operation_config fakeAll 1 FakeDevice.init FakeDevice.init
      { file := 3, remoteAddress := 0, logger := fakeAll.logPrintf } [] rfl).2.2
      (Op.writeByte 0x50 0x10 0x42)).1 (by decide)⟩

/-- C4 fails at address 0: on the bus `NewBus` returns for the fake device, the
first operation, a byte read from slave 0, goes straight to the transfer.  Its
trace is the transfer and the log call, with no configuration request. -/
theorem first_operation_address_zero_no_config :
    NewBus fakeAll 1 FakeDevice.init =
      (Except.ok { file := 3, remoteAddress := 0, logger := fakeAll.logPrintf },
       FakeDevice.init) ∧
    (Op.run fakeAll (Op.readByte 0 0x10)
      (fresh { file := 3, remoteAddress := 0, logger := fakeAll.logPrintf }
        FakeDevice.init [])).trace =
      [Event.readByteData 3 0x10 (-1) 121,
       Event.logger i2cLogFormat
         [Arg.str "recv", Arg.byte 0, Arg.byte 0x10, Arg.int (-1),
          Arg.err (some (GoError.errno 121))]] ∧
    configCount (Op.run fakeAll (Op.readByte 0 0x10)
      (fresh { file := 3, remoteAddress := 0, logger := fakeAll.logPrintf }
        FakeDevice.init [])).trace = 0 :=
  ⟨rfl, by decide, by decide⟩

/-- C5: when address selection fails with error `e`, each of the five transfer
operations returns `e` with a zero value or zero count, and ends in the state
the selection left: the trace gained the failed configuration request only, so
no transfer was attempted and the logger was not called, and the log sink is
untouched. -/
theorem selection_failure_returns_error (P : Platform D L) (s : Sys D L)
    (addr reg byteValue : Nat) (value : List Nat) (e : GoError)
    (hsel : (setRemoteAddress P addr s).1 = some e) :
    ReadByteFromReg P addr reg s = ((0, some e), (setRemoteAddress P addr s).2) ∧
    ReadWordFromReg P addr reg s = ((0, some e), (setRemoteAddress P addr s).2) ∧
    ReadSliceFromReg P addr reg value s =
      (Outcome.ret (0, some e, value), (setRemoteAddress P addr s).2) ∧
    WriteSliceToReg P addr reg value s =
      (Outcome.ret (0, some e), (setRemoteAddress P addr s).2) ∧
    WriteByteToReg P addr reg byteValue s = (some e, (setRemoteAddress P addr s).2) ∧
    emitted s (setRemoteAddress P addr s).2 =
      [Event.ioctl s.b.file addr (P.ioctlSlave s.b.file addr s.dev).1] ∧
    (∀ ev ∈ emitted s (setRemoteAddress P addr s).2,
      ev.isTransfer = false ∧ ev.isLog = false) ∧
    (setRemoteAddress P addr s).2.out = s.out := by
  rcases hs : setRemoteAddress P addr s with ⟨r, s1⟩
  rw [hs] at hsel
  simp only at hsel
  subst hsel
  have hem : emitted s s1 = [Event.ioctl s.b.file addr (P.ioctlSlave s.b.file addr s.dev).1] ∧
      s1.out = s.out := by
    by_cases hc : addr = s.b.remoteAddress
    · rw [setRemoteAddress_hit P addr s hc] at hs
      simp at hs
    · by_cases h0 : (P.ioctlSlave s.b.file addr s.dev).1 = 0
      · rw [setRemoteAddress_ok P addr s hc h0] at hs
        simp at hs
      · rw [setRemoteAddress_fail P addr s hc h0] at hs
        simp only [Prod.mk.injEq] at hs
        rw [← hs.2]
        exact ⟨emitted_append _ _ _ rfl, rfl⟩
  refine ⟨ReadByteFromReg_failed P addr reg s s1 e hs, ReadWordFromReg_failed P addr reg s s1 e hs,
    ReadSliceFromReg_failed P addr reg value s s1 e hs,
    WriteSliceToReg_failed P addr reg value s s1 e hs,
    WriteByteToReg_failed P addr reg byteValue s s1 e hs, hem.1, ?_, hem.2⟩
  intro ev hev
  rw [hem.1] at hev
  simp only [List.mem_singleton] at hev
  subst hev
  exact ⟨rfl, rfl⟩

theorem selection_failure_returns_error_witness :
    (setRemoteAddress fake7 0x80 (freshFake fake7)).1 = some (GoError.errno 22) ∧
    (WriteSliceToReg fake7 0x80 0x10 [1, 2, 3] (freshFake fake7)).1 =
      Outcome.ret (0, some (GoError.errno 22)) ∧
    (WriteSliceToReg fake7 0x80 0x10 [1, 2, 3] (freshFake fake7)).2.trace =
      [Event.ioctl 3 0x80 22] :=
  have h := selection_failure_returns_error fake7 (freshFake fake7) 0x80 0x10 0x42 [1, 2, 3]
    (GoError.errno 22) (by decide)
  ⟨by decide, by rw [h.2.2.2.1], by rw [h.2.2.2.1]; decide⟩

/-- With selection successful and, for the two block operations, a buffer that
is not empty, each of the five operations appends exactly the transfer and then
one logger call, made with the bus's logger on the log sink, carrying the
direction, the caller's address and register, the transferred value and the
error that the operation returns. -/
theorem logger_called_once_after_transfer (P : Platform D L) (s s1 : Sys D L)
    (addr reg byteValue : Nat) (value : List Nat)
    (hsel : setRemoteAddress P addr s = (none, s1)) (hne : value ≠ []) :
    (∃ ret errno, emitted s1 (ReadByteFromReg P addr reg s).2 =
        [Event.readByteData s1.b.file reg ret errno,
         Event.logger i2cLogFormat [Arg.str "recv", Arg.byte addr, Arg.byte reg, Arg.int ret,
           Arg.err (ReadByteFromReg P addr reg s).1.2]] ∧
      (ReadByteFromReg P addr reg s).2.out = s1.b.logger i2cLogFormat
        [Arg.str "recv", Arg.byte addr, Arg.byte reg, Arg.int ret,
         Arg.err (ReadByteFromReg P addr reg s).1.2] s1.out) ∧
    (∃ ret errno, emitted s1 (ReadWordFromReg P addr reg s).2 =
        [Event.readWordData s1.b.file reg ret errno,
         Event.logger i2cLogFormat [Arg.str "recv", Arg.byte addr, Arg.byte reg, Arg.int ret,
           Arg.err (ReadWordFromReg P addr reg s).1.2]] ∧
      (ReadWordFromReg P addr reg s).2.out = s1.b.logger i2cLogFormat
        [Arg.str "recv", Arg.byte addr, Arg.byte reg, Arg.int ret,
         Arg.err (ReadWordFromReg P addr reg s).1.2] s1.out) ∧
    (∃ ret errno err buffer,
      (ReadSliceFromReg P addr reg value s).1 = Outcome.ret (ret, err, buffer) ∧
      emitted s1 (ReadSliceFromReg P addr reg value s).2 =
        [Event.readBlockData s1.b.file reg (value.length % 256) ret errno,
         Event.logger i2cLogFormat [Arg.str "recv", Arg.byte addr, Arg.byte reg,
           Arg.bytes buffer, Arg.err err]] ∧
      (ReadSliceFromReg P addr reg value s).2.out = s1.b.logger i2cLogFormat
        [Arg.str "recv", Arg.byte addr, Arg.byte reg, Arg.bytes buffer, Arg.err err] s1.out) ∧
    (∃ ret errno err,
      (WriteSliceToReg P addr reg value s).1 = Outcome.ret (ret, err) ∧
      emitted s1 (WriteSliceToReg P addr reg value s).2 =
        [Event.writeBlockData s1.b.file reg (value.length % 256) value ret errno,
         Event.logger i2cLogFormat [Arg.str "send", Arg.byte addr, Arg.byte reg,
           Arg.bytes value, Arg.err err]] ∧
      (WriteSliceToReg P addr reg value s).2.out = s1.b.logger i2cLogFormat
        [Arg.str "send", Arg.byte addr, Arg.byte reg, Arg.bytes value, Arg.err err] s1.out) ∧
    (∃ ret errno, emitted s1 (WriteByteToReg P addr reg byteValue s).2 =
        [Event.writeByteData s1.b.file reg byteValue ret errno,
         Event.logger i2cLogFormat [Arg.str "send", Arg.byte addr, Arg.byte reg,
           Arg.byte byteValue, Arg.err (WriteByteToReg P addr reg byteValue s).1]] ∧
      (WriteByteToReg P addr reg byteValue s).2.out = s1.b.logger i2cLogFormat
        [Arg.str "send", Arg.byte addr, Arg.byte reg, Arg.byte byteValue,
         Arg.err (WriteByteToReg P addr reg byteValue s).1] s1.out) := by
  refine ⟨?_, ?_, ?_, ?_, ?_⟩
  · rw [ReadByteFromReg_selected P addr reg s s1 hsel]
    exact ⟨_, _, emitted_append _ _ _ rfl, rfl⟩
  · rw [ReadWordFromReg_selected P addr reg s s1 hsel]
    exact ⟨_, _, emitted_append _ _ _ rfl, rfl⟩
  · rw [ReadSliceFromReg_selected P addr reg value s s1 hsel hne]
    exact ⟨_, _, _, _, rfl, emitted_append _ _ _ rfl, rfl⟩
  · rw [WriteSliceToReg_selected P addr reg value s s1 hsel hne]
    exact ⟨_, _, _, rfl, emitted_append _ _ _ rfl, rfl⟩
  · rw [WriteByteToReg_selected P addr reg byteValue s s1 hsel]
    exact ⟨_, _, emitted_append _ _ _ rfl, rfl⟩

/-- C6 at an empty buffer: on the fake device, with the selection of slave 0x50
successful, `WriteSliceToReg` and `ReadSliceFromReg` called with an empty slice
end with the configuration request as their only event: the trace holds no
logger call and the log sink is still empty. -/
theorem empty_buffer_logger_not_called :
    (setRemoteAddress fakeAll 0x50 (freshFake fakeAll)).1 = none ∧
    (WriteSliceToReg fakeAll 0x50 0x10 [] (freshFake fakeAll)).2.trace =
      [Event.ioctl 3 0x50 0] ∧
    (WriteSliceToReg fakeAll 0x50 0x10 [] (freshFake fakeAll)).2.out = [] ∧
    (ReadSliceFromReg fakeAll 0x50 0x10 [] (freshFake fakeAll)).2.trace =
      [Event.ioctl 3 0x50 0] ∧
    (ReadSliceFromReg fakeAll 0x50 0x10 [] (freshFake fakeAll)).2.out = [] := by
  refine ⟨by decide, by decide, by decide, by decide, by decide⟩

/-- C10 at an empty buffer: on the fake device, with the selection of slave 0x50
successful, `ReadSliceFromReg` and `WriteSliceToReg` called with an empty slice
do not return: taking the element at index 0 of a slice of length 0 panics. -/
theorem empty_buffer_index_out_of_range :
    (setRemoteAddress fakeAll 0x50 (freshFake fakeAll)).1 = none ∧
    (ReadSliceFromReg fakeAll 0x50 0x10 [] (freshFake fakeAll)).1 =
      Outcome.indexOutOfRange 0 0 ∧
    (WriteSliceToReg fakeAll 0x50 0x10 [] (freshFake fakeAll)).1 =
      Outcome.indexOutOfRange 0 0 := by
  refine ⟨by decide, by decide, by decide⟩

/-- On every platform, a block operation whose selection succeeded panics on an
empty slice, before the transfer and the logger. -/
theorem empty_buffer_panics (P : Platform D L) (s s1 : Sys D L) (addr reg : Nat)
    (hsel : setRemoteAddress P addr s = (none, s1)) :
    ReadSliceFromReg P addr reg [] s = (Outcome.indexOutOfRange 0 0, s1) ∧
    WriteSliceToReg P addr reg [] s = (Outcome.indexOutOfRange 0 0, s1) :=
  ⟨ReadSliceFromReg_empty P addr reg s s1 hsel, WriteSliceToReg_empty P addr reg s s1 hsel⟩

/-- On the fake device that acknowledges every address, selection succeeds and
leaves `addr` both cached and configured on the device, unless it already was
cached, in which case nothing changes. -/
theorem setRemoteAddress_fakeAll (s : Sys FakeDevice (List (String × List Arg))) (addr : Nat) :
    ∃ s1, setRemoteAddress fakeAll addr s = (none, s1) ∧ s1.b.remoteAddress = addr := by
  by_cases hc : addr = s.b.remoteAddress
  · exact ⟨s, setRemoteAddress_hit fakeAll addr s hc, hc.symm⟩
  · exact ⟨_, setRemoteAddress_ok fakeAll addr s hc (by simp [fakeAll, fakePlatform]), rfl⟩

theorem FakeDevice.load_store (d : FakeDevice) (reg : Nat) (data : List Nat) :
    (d.store reg data).load reg = some data := by
  simp [FakeDevice.load, FakeDevice.store, List.lookup]

theorem storeAt_same_length (buffer data : List Nat) (h : buffer.length = data.length) :
    storeAt buffer data = data := by
  simp [storeAt, h]

/-- A block read on the fake device of a register holding `data`, at most 32
bytes, into a buffer of the same length. -/
theorem ReadSliceFromReg_fakeAll_stored (s : Sys FakeDevice (List (String × List Arg)))
    (addr reg : Nat) (data buffer : List Nat)
    (hcached : s.b.remoteAddress = addr) (hload : s.dev.load reg = some data)
    (h1 : 1 ≤ data.length) (h32 : data.length ≤ 32) (hbuf : buffer.length = data.length) :
    (ReadSliceFromReg fakeAll addr reg buffer s).1 =
      Outcome.ret ((data.length : Int), none, data) := by
  have hbuffer : buffer ≠ [] := by
    intro h; rw [h] at hbuf; simp at hbuf; omega
  have hlen : data.length % 256 = data.length := by omega
  have htake : List.take (min data.length I2C_SMBUS_BLOCK_MAX) data = data := by
    apply List.take_of_length_le
    unfold I2C_SMBUS_BLOCK_MAX
    omega
  have hr : fakeAll.i2c_smbus_read_i2c_block_data s.b.file reg data.length s.dev =
      (((data.length : Int), data, 0), s.dev) := by
    simp only [fakeAll, fakePlatform, hload, htake]
  rw [ReadSliceFromReg_selected fakeAll addr reg buffer s s
    (setRemoteAddress_hit fakeAll addr s hcached.symm) hbuffer]
  simp only [hbuf, hlen, hr, cgoErr, if_true, storeAt_same_length buffer data hbuf]

/-- C7: on the fake device that stores the bytes written to each register, for
every bus state, slave address, register and byte sequence of length N with
1 <= N <= 32, `WriteSliceToReg` of the sequence followed by `ReadSliceFromReg`
of the same register into any buffer of length N returns count N with no error
and leaves the buffer holding the sequence written. -/
theorem block_round_trip (s : Sys FakeDevice (List (String × List Arg))) (addr reg : Nat)
    (data buffer : List Nat)
    (h1 : 1 ≤ data.length) (h32 : data.length ≤ I2C_SMBUS_BLOCK_MAX)
    (hbuf : buffer.length = data.length) :
    (ReadSliceFromReg fakeAll addr reg buffer
      (WriteSliceToReg fakeAll addr reg data s).2).1 =
      Outcome.ret ((data.length : Int), none, data) := by
  have hdata : data ≠ [] := by
    intro h; rw [h] at h1; simp at h1
  unfold I2C_SMBUS_BLOCK_MAX at h32
  obtain ⟨s1, hs1, hcached⟩ := setRemoteAddress_fakeAll s addr
  rw [WriteSliceToReg_selected fakeAll addr reg data s s1 hs1 hdata]
  have hlen : data.length % 256 = data.length := by omega
  have htake : List.take (min data.length I2C_SMBUS_BLOCK_MAX) data = data := by
    apply List.take_of_length_le
    unfold I2C_SMBUS_BLOCK_MAX
    omega
  refine ReadSliceFromReg_fakeAll_stored _ addr reg data buffer ?_ ?_ h1 h32 hbuf
  · exact hcached
  · simp only [hlen, fakeAll, fakePlatform, htake, FakeDevice.load_store]

theorem block_round_trip_witness :
    (ReadSliceFromReg fakeAll 0x50 0x10 [0, 0, 0]
      (WriteSliceToReg fakeAll 0x50 0x10 [7, 8, 9] (freshFake fakeAll)).2).1 =
      Outcome.ret (3, none, [7, 8, 9]) :=
  block_round_trip (freshFake fakeAll) 0x50 0x10 [7, 8, 9] [0, 0, 0]
    (by decide) (by decide) (by decide)

/-- C8 (as the code has it): when selection succeeds and the buffer is not
empty, `ReadSliceFromReg` and `WriteSliceToReg` return whatever the buffer's
length is (no cap at the block maximum, nothing rejected or clamped to it), and
the byte count they hand to the block transfer is the buffer's length reduced
modulo 256 by the conversion to `__u8`; it is the buffer's length whenever that
is below 256.  The block write is handed the caller's whole slice. -/
theorem block_length_handed (P : Platform D L) (s : Sys D L) (addr reg : Nat)
    (value : List Nat)
    (hsel : (setRemoteAddress P addr s).1 = none) (hne : value ≠ []) :
    ((emitted (setRemoteAddress P addr s).2 (ReadSliceFromReg P addr reg value s).2).head?.bind
        Event.blockLength = some (value.length % 256)) ∧
    ((emitted (setRemoteAddress P addr s).2 (WriteSliceToReg P addr reg value s).2).head?.bind
        Event.blockLength = some (value.length % 256)) ∧
    (value.length < 256 →
      (emitted (setRemoteAddress P addr s).2
          (ReadSliceFromReg P addr reg value s).2).head?.bind Event.blockLength =
        some value.length ∧
      (emitted (setRemoteAddress P addr s).2
          (WriteSliceToReg P addr reg value s).2).head?.bind Event.blockLength =
        some value.length) ∧
    (∃ ret errno,
      (emitted (setRemoteAddress P addr s).2 (WriteSliceToReg P addr reg value s).2).head? =
        some (Event.writeBlockData (setRemoteAddress P addr s).2.b.file reg
          (value.length % 256) value ret errno)) ∧
    (∃ r, (ReadSliceFromReg P addr reg value s).1 = Outcome.ret r) ∧
    (∃ r, (WriteSliceToReg P addr reg value s).1 = Outcome.ret r) := by
  rcases hs : setRemoteAddress P addr s with ⟨r, s1⟩
  rw [hs] at hsel
  simp only at hsel
  subst hsel
  have hread := ReadSliceFromReg_selected P addr reg value s s1 hs hne
  have hwrite := WriteSliceToReg_selected P addr reg value s s1 hs hne
  have her : (emitted s1 (ReadSliceFromReg P addr reg value s).2).head?.bind
      Event.blockLength = some (value.length % 256) := by
    rw [hread, emitted_append _ _ _ rfl]
    rfl
  have hew : (emitted s1 (WriteSliceToReg P addr reg value s).2).head?.bind
      Event.blockLength = some (value.length % 256) := by
    rw [hwrite, emitted_append _ _ _ rfl]
    rfl
  refine ⟨her, hew, ?_, ?_, ?_, ?_⟩
  · intro hlt
    rw [her, hew, Nat.mod_eq_of_lt hlt]
    exact ⟨rfl, rfl⟩
  · rw [hwrite, emitted_append _ _ _ rfl]
    exact ⟨_, _, rfl⟩
  · rw [hread]
    exact ⟨_, rfl⟩
  · rw [hwrite]
    exact ⟨_, rfl⟩

theorem block_length_handed_witness :
    (setRemoteAddress fakeAll 0x50 (freshFake fakeAll)).1 = none ∧
    (emitted (setRemoteAddress fakeAll 0x50 (freshFake fakeAll)).2
      (WriteSliceToReg fakeAll 0x50 0x10 (List.replicate 40 7)
        (freshFake fakeAll)).2).head?.bind Event.blockLength = some 40 :=
  ⟨by decide,
   (block_length_handed fakeAll (freshFake fakeAll) 0x50 0x10 (List.replicate 40 7)
      (by decide) (by decide)).2.1⟩

/-- C8 fails at a buffer of 256 bytes: on the fake device, with the selection
successful, `WriteSliceToReg` and `ReadSliceFromReg` hand the block transfer the
byte count 0, not the buffer's length 256. -/
theorem block_length_256_handed_as_zero :
    (List.replicate 256 0).length = 256 ∧
    (setRemoteAddress fakeAll 0x50 (freshFake fakeAll)).1 = none ∧
    (emitted (setRemoteAddress fakeAll 0x50 (freshFake fakeAll)).2
      (WriteSliceToReg fakeAll 0x50 0x10 (List.replicate 256 0)
        (freshFake fakeAll)).2).head?.bind Event.blockLength = some 0 ∧
    (emitted (setRemoteAddress fakeAll 0x50 (freshFake fakeAll)).2
      (ReadSliceFromReg fakeAll 0x50 0x10 (List.replicate 256 0)
        (freshFake fakeAll)).2).head?.bind Event.blockLength = some 0 := by
  have hne : List.replicate 256 (0 : Nat) ≠ [] := by
    intro h
    have hl := congrArg List.length h
    simp only [List.length_replicate, List.length_nil] at hl
    omega
  refine ⟨List.length_replicate 256 0, by decide, ?_, ?_⟩
  · rw [WriteSliceToReg_selected fakeAll 0x50 0x10 (List.replicate 256 0) (freshFake fakeAll)
      (setRemoteAddress fakeAll 0x50 (freshFake fakeAll)).2 rfl hne,
      emitted_append _ _ _ rfl]
    simp only [List.head?_cons, Option.some_bind, Event.blockLength, List.length_replicate,
      Nat.mod_self]
  · rw [ReadSliceFromReg_selected fakeAll 0x50 0x10 (List.replicate 256 0) (freshFake fakeAll)
      (setRemoteAddress fakeAll 0x50 (freshFake fakeAll)).2 rfl hne,
      emitted_append _ _ _ rfl]
    simp only [List.head?_cons, Option.some_bind, Event.blockLength, List.length_replicate,
      Nat.mod_self]

end I2c
